import Mathlib

/-!
Shallow embedding of `delete-default-vpc.py`.

The script tears down AWS default VPCs. Every AWS API call is modelled by an
oracle recorded in the input data: each resource record carries the outcome
of the delete or detach call that the script would issue for it (`none` means
the call succeeds, `some msg` means it raises an API error with message
`msg`), and each listing call is an `Except String` value (`.error msg` means
the listing itself raises).  A run of a Python function is modelled as a
`PyResult`: the list of observable events it emits (console prints and API
calls), plus `exc`, the exception that escaped the function, if any.
Console prints are modelled as structured events, one constructor per print
statement of the source, carrying exactly the data the source interpolates
into the message.
-/

/-- Source constant `VERBOSE: bool = True` (line 28). -/
def VERBOSE : Bool := true

/-- Source constant `THREADPOOL_MAX_WORKERS: int = 20` (line 29). -/
def THREADPOOL_MAX_WORKERS : Int := 20

/-- Observable events of a run: one constructor per print statement of the
source (carrying the interpolated data) and one per remote API mutation. -/
inductive Event where
  /-- print of "Detaching and Removing igw-id: ..." (verbose-gated, line 75) -/
  | printDetachingIgw (igwId : String)
  /-- print of "Error deleting IGW ...: ..." (line 79) -/
  | printErrorIgw (igwId : String) (msg : String)
  /-- print of "Removing subnet-id: ..." (verbose-gated, line 100) -/
  | printRemovingSubnet (subnetId : String)
  /-- print of "Error deleting subnet ...: ..." (line 103) -/
  | printErrorSubnet (subnetId : String) (msg : String)
  /-- print of "... is the main route table, skipping..." (verbose-gated, line 120) -/
  | printSkipMainRtb (rtbId : String)
  /-- print of "Removing rtb-id: ..." (verbose-gated, line 123) -/
  | printRemovingRtb (rtbId : String)
  /-- print of "Error deleting route table ...: ..." (line 126) -/
  | printErrorRtb (rtbId : String) (msg : String)
  /-- print of "... is the default NACL, skipping..." (verbose-gated, line 143) -/
  | printSkipDefaultAcl (aclId : String)
  /-- print of "Removing acl-id: ..." (verbose-gated, line 146) -/
  | printRemovingAcl (aclId : String)
  /-- print of "Error deleting NACL ...: ..." (line 149) -/
  | printErrorAcl (aclId : String) (msg : String)
  /-- print of "... is the default security group, skipping..." (verbose-gated, line 166) -/
  | printSkipDefaultSgp (sgpId : String)
  /-- print of "Removing sg-id: ..." (verbose-gated, line 169) -/
  | printRemovingSgp (sgpId : String)
  /-- print of "Error deleting security group ...: ..." (line 172) -/
  | printErrorSgp (sgpId : String) (msg : String)
  /-- print of "Removing vpc-id: ..." (unconditional, line 186) -/
  | printRemovingVpc (vpcId : String)
  /-- print of "Error deleting VPC ...: ..." (line 189) -/
  | printErrorVpc (vpcId : String) (msg : String)
  /-- print of "Please remove dependencies and delete VPC manually." (line 190) -/
  | printManualCleanup
  /-- API call `igw.detach_from_vpc(VpcId=vpc_id)` (line 76) -/
  | apiDetachIgw (igwId : String) (vpcId : String)
  /-- API call `igw.delete()` (line 77) -/
  | apiDeleteIgw (igwId : String)
  /-- API call `subnet.delete()` (line 101) -/
  | apiDeleteSubnet (subnetId : String)
  /-- API call `rtb.delete()` (line 124) -/
  | apiDeleteRtb (rtbId : String)
  /-- API call `acl.delete()` (line 147) -/
  | apiDeleteAcl (aclId : String)
  /-- API call `sg.delete()` (line 170) -/
  | apiDeleteSgp (sgpId : String)
  /-- API call `vpc_resource.delete()` (line 187) -/
  | apiDeleteVpc (vpcId : String)
  /-- print of the region/VPC banner (line 237) -/
  | printRegionBanner (region : String) (vpcId : String)
  /-- print of "Error accessing region ...: ..." (line 233) -/
  | printErrorRegion (region : String) (msg : String)
  /-- `executor.submit(del_vpc_all, ec2, vpc)` (line 238) -/
  | submitTeardown (region : String) (vpcId : String)
  /-- print of "Deleted all default VPCs" (line 241) -/
  | printDone
deriving DecidableEq, Repr

/-- Result of running one Python function: the events it emitted, and the
exception that escaped it (`none` if it returned normally). -/
structure PyResult where
  trace : List Event
  exc : Option String
deriving DecidableEq, Repr

/-- Python `;`-sequencing: if the first statement raises, the second never
runs and the exception propagates. -/
def pseq (a : PyResult) (b : PyResult) : PyResult :=
  match a.exc with
  | some e => ⟨a.trace, some e⟩
  | none => ⟨a.trace ++ b.trace, b.exc⟩

/-- An internet gateway of the VPC, with the oracle outcomes of the detach
and delete calls the script issues for it. -/
structure Igw where
  id : String
  detachExc : Option String
  deleteExc : Option String
deriving DecidableEq, Repr

/-- A subnet of the VPC: its `default_for_az` attribute and the oracle
outcome of its delete call. -/
structure Subnet where
  id : String
  default_for_az : Bool
  deleteExc : Option String
deriving DecidableEq, Repr

/-- A route table of the VPC.  `associations` models
`rtb.associations_attribute`: one entry per association, holding the value
of its optional `Main` key (`none` when the key is absent). -/
structure RouteTable where
  id : String
  associations : List (Option Bool)
  deleteExc : Option String
deriving DecidableEq, Repr

/-- A network ACL of the VPC: its `is_default` attribute and the oracle
outcome of its delete call. -/
structure NetworkAcl where
  id : String
  is_default : Bool
  deleteExc : Option String
deriving DecidableEq, Repr

/-- A security group of the VPC: its `group_name` attribute and the oracle
outcome of its delete call. -/
structure SecurityGroup where
  id : String
  group_name : String
  deleteExc : Option String
deriving DecidableEq, Repr

/-- The remote state visible to one VPC teardown: the outcome of each of the
five listing calls (`.error` = the listing call raises) and the outcome of
the final VPC delete call. -/
structure VpcEnv where
  igws : Except String (List Igw)
  subnets : Except String (List Subnet)
  routeTables : Except String (List RouteTable)
  acls : Except String (List NetworkAcl)
  securityGroups : Except String (List SecurityGroup)
  vpcDeleteExc : Option String
deriving Repr

/-- Loop body of `del_igw` (lines 72-79): verbose banner, detach attempt;
on detach failure the error is caught and printed and the delete is never
reached; otherwise the delete is attempted and its failure caught and
printed. -/
def igwItemTrace (verbose : Bool) (vpcId : String) (igw : Igw) : List Event :=
  (if verbose then [Event.printDetachingIgw igw.id] else [])
    ++ Event.apiDetachIgw igw.id vpcId ::
      match igw.detachExc with
      | some e => [Event.printErrorIgw igw.id e]
      | none =>
        Event.apiDeleteIgw igw.id ::
          match igw.deleteExc with
          | some e => [Event.printErrorIgw igw.id e]
          | none => []

/-- `del_igw` (lines 62-79): iterate over the VPC's internet gateways; a
listing failure propagates (the iteration is outside the try). -/
def del_igw (verbose : Bool) (vpcId : String) (env : VpcEnv) : PyResult :=
  match env.igws with
  | .error e => ⟨[], some e⟩
  | .ok gs => ⟨gs.flatMap (igwItemTrace verbose vpcId), none⟩

/-- Loop body of `del_sub` (lines 97-103): verbose banner, delete attempt,
failure caught and printed. -/
def subItemTrace (verbose : Bool) (s : Subnet) : List Event :=
  (if verbose then [Event.printRemovingSubnet s.id] else [])
    ++ Event.apiDeleteSubnet s.id ::
      match s.deleteExc with
      | some e => [Event.printErrorSubnet s.id e]
      | none => []

/-- `del_sub` (lines 82-103): subnets with `default_for_az` false are
filtered out before the loop; a listing failure propagates. -/
def del_sub (verbose : Bool) (vpcId : String) (env : VpcEnv) : PyResult :=
  match env.subnets with
  | .error e => ⟨[], some e⟩
  | .ok ss => ⟨(ss.filter (fun s => s.default_for_az)).flatMap (subItemTrace verbose), none⟩

/-- `any(assoc.get("Main", False) for assoc in rtb.associations_attribute)`
(line 118). -/
def rtbIsMain (r : RouteTable) : Bool :=
  r.associations.any (fun a => a.getD false)

/-- Loop body of `del_rtb` (lines 116-126): the main table is skipped with a
verbose-gated message; any other table gets a verbose banner and a delete
attempt whose failure is caught and printed. -/
def rtbItemTrace (verbose : Bool) (r : RouteTable) : List Event :=
  if rtbIsMain r then
    if verbose then [Event.printSkipMainRtb r.id] else []
  else
    (if verbose then [Event.printRemovingRtb r.id] else [])
      ++ Event.apiDeleteRtb r.id ::
        match r.deleteExc with
        | some e => [Event.printErrorRtb r.id e]
        | none => []

/-- `del_rtb` (lines 106-126): iterate over the VPC's route tables; a
listing failure propagates. -/
def del_rtb (verbose : Bool) (vpcId : String) (env : VpcEnv) : PyResult :=
  match env.routeTables with
  | .error e => ⟨[], some e⟩
  | .ok rs => ⟨rs.flatMap (rtbItemTrace verbose), none⟩

/-- Loop body of `del_acl` (lines 139-149): the default NACL is skipped with
a verbose-gated message; any other ACL gets a verbose banner and a delete
attempt whose failure is caught and printed. -/
def aclItemTrace (verbose : Bool) (a : NetworkAcl) : List Event :=
  if a.is_default then
    if verbose then [Event.printSkipDefaultAcl a.id] else []
  else
    (if verbose then [Event.printRemovingAcl a.id] else [])
      ++ Event.apiDeleteAcl a.id ::
        match a.deleteExc with
        | some e => [Event.printErrorAcl a.id e]
        | none => []

/-- `del_acl` (lines 129-149): iterate over the VPC's network ACLs; a
listing failure propagates. -/
def del_acl (verbose : Bool) (vpcId : String) (env : VpcEnv) : PyResult :=
  match env.acls with
  | .error e => ⟨[], some e⟩
  | .ok als => ⟨als.flatMap (aclItemTrace verbose), none⟩

/-- Loop body of `del_sgp` (lines 162-172): a group whose name is exactly
"default" is skipped with a verbose-gated message; any other group gets a
verbose banner and a delete attempt whose failure is caught and printed. -/
def sgpItemTrace (verbose : Bool) (g : SecurityGroup) : List Event :=
  if g.group_name = "default" then
    if verbose then [Event.printSkipDefaultSgp g.id] else []
  else
    (if verbose then [Event.printRemovingSgp g.id] else [])
      ++ Event.apiDeleteSgp g.id ::
        match g.deleteExc with
        | some e => [Event.printErrorSgp g.id e]
        | none => []

/-- `del_sgp` (lines 152-172): iterate over the VPC's security groups; a
listing failure propagates. -/
def del_sgp (verbose : Bool) (vpcId : String) (env : VpcEnv) : PyResult :=
  match env.securityGroups with
  | .error e => ⟨[], some e⟩
  | .ok sgs => ⟨sgs.flatMap (sgpItemTrace verbose), none⟩

/-- `del_vpc` (lines 175-190): the "Removing vpc-id" banner is printed
unconditionally (not gated on the verbose flag), then the VPC delete is
attempted; its failure is caught and two diagnostics printed. -/
def del_vpc (vpcId : String) (env : VpcEnv) : PyResult :=
  ⟨Event.printRemovingVpc vpcId :: Event.apiDeleteVpc vpcId ::
      (match env.vpcDeleteExc with
       | some e => [Event.printErrorVpc vpcId e, Event.printManualCleanup]
       | none => []),
   none⟩

/-- `del_vpc_all` (lines 193-215): the six steps, as a plain statement
sequence in source order. -/
def del_vpc_all (verbose : Bool) (vpcId : String) (env : VpcEnv) : PyResult :=
  pseq (del_igw verbose vpcId env)
    (pseq (del_sub verbose vpcId env)
      (pseq (del_rtb verbose vpcId env)
        (pseq (del_acl verbose vpcId env)
          (pseq (del_sgp verbose vpcId env)
            (del_vpc vpcId env)))))

/-- One region as seen by `main`: its name, and the combined outcome of the
three calls in the per-region try block (client construction, resource
construction and `get_default_vpcs`, lines 229-231) — `.ok` carries the
default-VPC id list, `.error` the raised message. -/
structure Region where
  name : String
  discovery : Except String (List String)
deriving Repr

/-- Per-region body of the loop in `main` (lines 228-238): a discovery
failure is caught and printed and the region skipped; otherwise each
discovered default VPC gets a banner and one submitted teardown task. -/
def regionEvents (r : Region) : List Event :=
  match r.discovery with
  | .error e => [Event.printErrorRegion r.name e]
  | .ok vpcs =>
    vpcs.flatMap (fun v => [Event.printRegionBanner r.name v, Event.submitTeardown r.name v])

/-- The region loop of `main` (lines 227-238). -/
def mainLoop (regions : List Region) : List Event :=
  regions.flatMap regionEvents

/-- Python `int()` digit parsing: a nonempty digit string in which a single
underscore may appear between two digits. -/
def pyDigitsAux : Nat → List Char → Option Nat
  | acc, [] => some acc
  | acc, c :: rest =>
    if c.isDigit then pyDigitsAux (acc * 10 + (c.toNat - 48)) rest
    else
      match c, rest with
      | '_', c2 :: rest2 =>
        if c2.isDigit then pyDigitsAux (acc * 10 + (c2.toNat - 48)) rest2
        else none
      | _, _ => none

/-- Python `int()` on the part after the optional sign: at least one digit,
underscores only between digits. -/
def pyIntDigits (l : List Char) : Option Nat :=
  match l with
  | [] => none
  | c :: rest => if c.isDigit then pyDigitsAux (c.toNat - 48) rest else none

/-- Leading- and trailing-whitespace stripping, as Python `int()` applies
before parsing. -/
def pyStrip (l : List Char) : List Char :=
  ((l.dropWhile Char.isWhitespace).reverse.dropWhile Char.isWhitespace).reverse

/-- Python `int(s)` for a string `s`: strip surrounding whitespace, allow one
leading sign, then digits; anything else raises ValueError. -/
def pyIntOfString (s : String) : Except String Int :=
  match pyStrip s.toList with
  | '+' :: rest =>
    match pyIntDigits rest with
    | some n => .ok (Int.ofNat n)
    | none => .error ("invalid literal for int() with base 10: " ++ s)
  | '-' :: rest =>
    match pyIntDigits rest with
    | some n => .ok (-(Int.ofNat n))
    | none => .error ("invalid literal for int() with base 10: " ++ s)
  | l =>
    match pyIntDigits l with
    | some n => .ok (Int.ofNat n)
    | none => .error ("invalid literal for int() with base 10: " ++ s)

/-- `int(os.getenv("MAX_WORKERS", THREADPOOL_MAX_WORKERS))` (line 223):
when the variable is unset, `int()` of the integer default returns it
unchanged; when set, the string is converted with an unguarded `int()`. -/
def resolveMaxWorkers (envVar : Option String) : Except String Int :=
  match envVar with
  | some s => pyIntOfString s
  | none => .ok THREADPOOL_MAX_WORKERS

/-- `main` (lines 218-241), after a successful `get_regions`: the worker
count is resolved (an unhandled ValueError escapes before the region loop),
then the region loop runs and the completion banner is printed once all
submitted tasks finish. -/
def pymain (maxWorkersVar : Option String) (regions : List Region) : PyResult :=
  match resolveMaxWorkers maxWorkersVar with
  | .error e => ⟨[], some e⟩
  | .ok _ => ⟨mainLoop regions ++ [Event.printDone], none⟩

/-! ## Helper lemmas -/

theorem pseq_exc_none {a b : PyResult} (h : a.exc = none) :
    pseq a b = ⟨a.trace ++ b.trace, b.exc⟩ := by
  simp [pseq, h]

theorem pseq_exc_some {a b : PyResult} {e : String} (h : a.exc = some e) :
    pseq a b = ⟨a.trace, some e⟩ := by
  simp [pseq, h]

theorem del_igw_ok {env : VpcEnv} {gs : List Igw} (verbose : Bool) (vpcId : String)
    (h : env.igws = .ok gs) :
    del_igw verbose vpcId env = ⟨gs.flatMap (igwItemTrace verbose vpcId), none⟩ := by
  simp [del_igw, h]

theorem del_sub_ok {env : VpcEnv} {ss : List Subnet} (verbose : Bool) (vpcId : String)
    (h : env.subnets = .ok ss) :
    del_sub verbose vpcId env
      = ⟨(ss.filter (fun s => s.default_for_az)).flatMap (subItemTrace verbose), none⟩ := by
  simp [del_sub, h]

theorem del_rtb_ok {env : VpcEnv} {rs : List RouteTable} (verbose : Bool) (vpcId : String)
    (h : env.routeTables = .ok rs) :
    del_rtb verbose vpcId env = ⟨rs.flatMap (rtbItemTrace verbose), none⟩ := by
  simp [del_rtb, h]

theorem del_acl_ok {env : VpcEnv} {als : List NetworkAcl} (verbose : Bool) (vpcId : String)
    (h : env.acls = .ok als) :
    del_acl verbose vpcId env = ⟨als.flatMap (aclItemTrace verbose), none⟩ := by
  simp [del_acl, h]

theorem del_sgp_ok {env : VpcEnv} {sgs : List SecurityGroup} (verbose : Bool) (vpcId : String)
    (h : env.securityGroups = .ok sgs) :
    del_sgp verbose vpcId env = ⟨sgs.flatMap (sgpItemTrace verbose), none⟩ := by
  simp [del_sgp, h]

theorem del_vpc_exc (vpcId : String) (env : VpcEnv) : (del_vpc vpcId env).exc = none := rfl

/-- When the five steps raise nothing, the teardown trace is the
concatenation of the six step traces in source order and nothing escapes. -/
theorem del_vpc_all_decomp (verbose : Bool) (vpcId : String) (env : VpcEnv)
    (hA : (del_igw verbose vpcId env).exc = none)
    (hB : (del_sub verbose vpcId env).exc = none)
    (hC : (del_rtb verbose vpcId env).exc = none)
    (hD : (del_acl verbose vpcId env).exc = none)
    (hE : (del_sgp verbose vpcId env).exc = none) :
    (del_vpc_all verbose vpcId env).trace
      = (del_igw verbose vpcId env).trace ++ ((del_sub verbose vpcId env).trace
        ++ ((del_rtb verbose vpcId env).trace ++ ((del_acl verbose vpcId env).trace
        ++ ((del_sgp verbose vpcId env).trace ++ (del_vpc vpcId env).trace))))
      ∧ (del_vpc_all verbose vpcId env).exc = none := by
  unfold del_vpc_all
  rw [pseq_exc_none hE, pseq_exc_none hD, pseq_exc_none hC, pseq_exc_none hB,
    pseq_exc_none hA]
  exact ⟨rfl, rfl⟩

theorem apiDeleteVpc_not_mem_igwItemTrace (verbose : Bool) (vpcId w : String) (g : Igw) :
    Event.apiDeleteVpc w ∉ igwItemTrace verbose vpcId g := by
  unfold igwItemTrace
  cases g.detachExc <;> cases g.deleteExc <;> cases verbose <;> simp

theorem apiDeleteVpc_not_mem_subItemTrace (verbose : Bool) (w : String) (s : Subnet) :
    Event.apiDeleteVpc w ∉ subItemTrace verbose s := by
  unfold subItemTrace
  cases s.deleteExc <;> cases verbose <;> simp

theorem apiDeleteVpc_not_mem_rtbItemTrace (verbose : Bool) (w : String) (r : RouteTable) :
    Event.apiDeleteVpc w ∉ rtbItemTrace verbose r := by
  unfold rtbItemTrace
  cases rtbIsMain r <;> cases r.deleteExc <;> cases verbose <;> simp

theorem apiDeleteVpc_not_mem_aclItemTrace (verbose : Bool) (w : String) (a : NetworkAcl) :
    Event.apiDeleteVpc w ∉ aclItemTrace verbose a := by
  unfold aclItemTrace
  cases a.is_default <;> cases a.deleteExc <;> cases verbose <;> simp

theorem apiDeleteVpc_not_mem_sgpItemTrace (verbose : Bool) (w : String) (g : SecurityGroup) :
    Event.apiDeleteVpc w ∉ sgpItemTrace verbose g := by
  unfold sgpItemTrace
  by_cases hn : g.group_name = "default" <;> cases g.deleteExc <;> cases verbose <;>
    simp [hn]

theorem apiDeleteVpc_not_mem_del_igw (verbose : Bool) (vpcId w : String) (env : VpcEnv) :
    Event.apiDeleteVpc w ∉ (del_igw verbose vpcId env).trace := by
  cases h : env.igws with
  | error e => simp [del_igw, h]
  | ok gs =>
    rw [del_igw_ok verbose vpcId h]
    intro hmem
    obtain ⟨g, _, hg⟩ := List.mem_flatMap.1 hmem
    exact apiDeleteVpc_not_mem_igwItemTrace verbose vpcId w g hg

theorem apiDeleteVpc_not_mem_del_sub (verbose : Bool) (vpcId w : String) (env : VpcEnv) :
    Event.apiDeleteVpc w ∉ (del_sub verbose vpcId env).trace := by
  cases h : env.subnets with
  | error e => simp [del_sub, h]
  | ok ss =>
    rw [del_sub_ok verbose vpcId h]
    intro hmem
    obtain ⟨s, _, hs⟩ := List.mem_flatMap.1 hmem
    exact apiDeleteVpc_not_mem_subItemTrace verbose w s hs

theorem apiDeleteVpc_not_mem_del_rtb (verbose : Bool) (vpcId w : String) (env : VpcEnv) :
    Event.apiDeleteVpc w ∉ (del_rtb verbose vpcId env).trace := by
  cases h : env.routeTables with
  | error e => simp [del_rtb, h]
  | ok rs =>
    rw [del_rtb_ok verbose vpcId h]
    intro hmem
    obtain ⟨r, _, hr⟩ := List.mem_flatMap.1 hmem
    exact apiDeleteVpc_not_mem_rtbItemTrace verbose w r hr

theorem apiDeleteVpc_not_mem_del_acl (verbose : Bool) (vpcId w : String) (env : VpcEnv) :
    Event.apiDeleteVpc w ∉ (del_acl verbose vpcId env).trace := by
  cases h : env.acls with
  | error e => simp [del_acl, h]
  | ok als =>
    rw [del_acl_ok verbose vpcId h]
    intro hmem
    obtain ⟨a, _, ha⟩ := List.mem_flatMap.1 hmem
    exact apiDeleteVpc_not_mem_aclItemTrace verbose w a ha

theorem apiDeleteVpc_not_mem_del_sgp (verbose : Bool) (vpcId w : String) (env : VpcEnv) :
    Event.apiDeleteVpc w ∉ (del_sgp verbose vpcId env).trace := by
  cases h : env.securityGroups with
  | error e => simp [del_sgp, h]
  | ok sgs =>
    rw [del_sgp_ok verbose vpcId h]
    intro hmem
    obtain ⟨g, _, hg⟩ := List.mem_flatMap.1 hmem
    exact apiDeleteVpc_not_mem_sgpItemTrace verbose w g hg

/-! ## Claims -/

/-- C1: the teardown sequencer invokes the six steps in the fixed order
Gateways, Subnets, RouteTables, Acls, SecurityGroups, VPC-delete.  When the
five listing calls succeed the whole-teardown trace is exactly the six step
traces concatenated in that order, no matter how the individual delete and
detach calls fail (each step is invoked unconditionally, internal failures
being caught inside the step), and no exception escapes.  Moreover, for
every environment whatsoever, whenever the VPC delete call appears in the
trace, all five dependent-resource steps completed first and the trace is
the in-order concatenation of the six step traces. -/
theorem del_vpc_all_fixed_order (verbose : Bool) (vpcId : String) (env : VpcEnv)
    (gs : List Igw) (ss : List Subnet) (rs : List RouteTable)
    (als : List NetworkAcl) (sgs : List SecurityGroup)
    (h1 : env.igws = .ok gs) (h2 : env.subnets = .ok ss)
    (h3 : env.routeTables = .ok rs) (h4 : env.acls = .ok als)
    (h5 : env.securityGroups = .ok sgs) :
    ((del_vpc_all verbose vpcId env).trace
        = (del_igw verbose vpcId env).trace ++ ((del_sub verbose vpcId env).trace
          ++ ((del_rtb verbose vpcId env).trace ++ ((del_acl verbose vpcId env).trace
          ++ ((del_sgp verbose vpcId env).trace ++ (del_vpc vpcId env).trace))))
      ∧ (del_vpc_all verbose vpcId env).exc = none)
    ∧ ∀ env2 : VpcEnv,
        Event.apiDeleteVpc vpcId ∈ (del_vpc_all verbose vpcId env2).trace →
        (del_igw verbose vpcId env2).exc = none
        ∧ (del_sub verbose vpcId env2).exc = none
        ∧ (del_rtb verbose vpcId env2).exc = none
        ∧ (del_acl verbose vpcId env2).exc = none
        ∧ (del_sgp verbose vpcId env2).exc = none
        ∧ (del_vpc_all verbose vpcId env2).trace
          = (del_igw verbose vpcId env2).trace ++ ((del_sub verbose vpcId env2).trace
            ++ ((del_rtb verbose vpcId env2).trace ++ ((del_acl verbose vpcId env2).trace
            ++ ((del_sgp verbose vpcId env2).trace ++ (del_vpc vpcId env2).trace)))) := by
  constructor
  · exact del_vpc_all_decomp verbose vpcId env
      (by simp [del_igw, h1]) (by simp [del_sub, h2]) (by simp [del_rtb, h3])
      (by simp [del_acl, h4]) (by simp [del_sgp, h5])
  · intro env2 hmem
    have hA : (del_igw verbose vpcId env2).exc = none := by
      cases h : env2.igws with
      | error e =>
        exfalso
        have ht : (del_vpc_all verbose vpcId env2).trace
            = (del_igw verbose vpcId env2).trace := by
          unfold del_vpc_all
          rw [pseq_exc_some (show (del_igw verbose vpcId env2).exc = some e by
            simp [del_igw, h])]
        rw [ht] at hmem
        exact apiDeleteVpc_not_mem_del_igw verbose vpcId vpcId env2 hmem
      | ok gs2 => simp [del_igw, h]
    have hB : (del_sub verbose vpcId env2).exc = none := by
      cases h : env2.subnets with
      | error e =>
        exfalso
        have ht : (del_vpc_all verbose vpcId env2).trace
            = (del_igw verbose vpcId env2).trace
              ++ (del_sub verbose vpcId env2).trace := by
          unfold del_vpc_all
          rw [pseq_exc_some (show (del_sub verbose vpcId env2).exc = some e by
            simp [del_sub, h]), pseq_exc_none hA]
        rw [ht] at hmem
        rcases List.mem_append.1 hmem with hc | hc
        · exact apiDeleteVpc_not_mem_del_igw verbose vpcId vpcId env2 hc
        · exact apiDeleteVpc_not_mem_del_sub verbose vpcId vpcId env2 hc
      | ok ss2 => simp [del_sub, h]
    have hC : (del_rtb verbose vpcId env2).exc = none := by
      cases h : env2.routeTables with
      | error e =>
        exfalso
        have ht : (del_vpc_all verbose vpcId env2).trace
            = (del_igw verbose vpcId env2).trace
              ++ ((del_sub verbose vpcId env2).trace
              ++ (del_rtb verbose vpcId env2).trace) := by
          unfold del_vpc_all
          rw [pseq_exc_some (show (del_rtb verbose vpcId env2).exc = some e by
            simp [del_rtb, h]), pseq_exc_none hB, pseq_exc_none hA]
        rw [ht] at hmem
        rcases List.mem_append.1 hmem with hc | hc
        · exact apiDeleteVpc_not_mem_del_igw verbose vpcId vpcId env2 hc
        rcases List.mem_append.1 hc with hd | hd
        · exact apiDeleteVpc_not_mem_del_sub verbose vpcId vpcId env2 hd
        · exact apiDeleteVpc_not_mem_del_rtb verbose vpcId vpcId env2 hd
      | ok rs2 => simp [del_rtb, h]
    have hD : (del_acl verbose vpcId env2).exc = none := by
      cases h : env2.acls with
      | error e =>
        exfalso
        have ht : (del_vpc_all verbose vpcId env2).trace
            = (del_igw verbose vpcId env2).trace
              ++ ((del_sub verbose vpcId env2).trace
              ++ ((del_rtb verbose vpcId env2).trace
              ++ (del_acl verbose vpcId env2).trace)) := by
          unfold del_vpc_all
          rw [pseq_exc_some (show (del_acl verbose vpcId env2).exc = some e by
            simp [del_acl, h]), pseq_exc_none hC, pseq_exc_none hB, pseq_exc_none hA]
        rw [ht] at hmem
        rcases List.mem_append.1 hmem with hc | hc
        · exact apiDeleteVpc_not_mem_del_igw verbose vpcId vpcId env2 hc
        rcases List.mem_append.1 hc with hd | hd
        · exact apiDeleteVpc_not_mem_del_sub verbose vpcId vpcId env2 hd
        rcases List.mem_append.1 hd with he | he
        · exact apiDeleteVpc_not_mem_del_rtb verbose vpcId vpcId env2 he
        · exact apiDeleteVpc_not_mem_del_acl verbose vpcId vpcId env2 he
      | ok als2 => simp [del_acl, h]
    have hE : (del_sgp verbose vpcId env2).exc = none := by
      cases h : env2.securityGroups with
      | error e =>
        exfalso
        have ht : (del_vpc_all verbose vpcId env2).trace
            = (del_igw verbose vpcId env2).trace
              ++ ((del_sub verbose vpcId env2).trace
              ++ ((del_rtb verbose vpcId env2).trace
              ++ ((del_acl verbose vpcId env2).trace
              ++ (del_sgp verbose vpcId env2).trace))) := by
          unfold del_vpc_all
          rw [pseq_exc_some (show (del_sgp verbose vpcId env2).exc = some e by
            simp [del_sgp, h]), pseq_exc_none hD, pseq_exc_none hC, pseq_exc_none hB,
            pseq_exc_none hA]
        rw [ht] at hmem
        rcases List.mem_append.1 hmem with hc | hc
        · exact apiDeleteVpc_not_mem_del_igw verbose vpcId vpcId env2 hc
        rcases List.mem_append.1 hc with hd | hd
        · exact apiDeleteVpc_not_mem_del_sub verbose vpcId vpcId env2 hd
        rcases List.mem_append.1 hd with he | he
        · exact apiDeleteVpc_not_mem_del_rtb verbose vpcId vpcId env2 he
        rcases List.mem_append.1 he with hf | hf
        · exact apiDeleteVpc_not_mem_del_acl verbose vpcId vpcId env2 hf
        · exact apiDeleteVpc_not_mem_del_sgp verbose vpcId vpcId env2 hf
      | ok sgs2 => simp [del_sgp, h]
    exact ⟨hA, hB, hC, hD, hE,
      (del_vpc_all_decomp verbose vpcId env2 hA hB hC hD hE).1⟩

theorem mem_teardown_of_igwItem (verbose : Bool) (vpcId : String) (env : VpcEnv)
    {gs : List Igw} {ss : List Subnet} {rs : List RouteTable}
    {als : List NetworkAcl} {sgs : List SecurityGroup}
    (h1 : env.igws = .ok gs) (h2 : env.subnets = .ok ss)
    (h3 : env.routeTables = .ok rs) (h4 : env.acls = .ok als)
    (h5 : env.securityGroups = .ok sgs) {x : Event} {g : Igw}
    (hg : g ∈ gs) (hx : x ∈ igwItemTrace verbose vpcId g) :
    x ∈ (del_vpc_all verbose vpcId env).trace := by
  rw [(del_vpc_all_decomp verbose vpcId env (by simp [del_igw, h1])
    (by simp [del_sub, h2]) (by simp [del_rtb, h3]) (by simp [del_acl, h4])
    (by simp [del_sgp, h5])).1]
  refine List.mem_append.2 (Or.inl ?h)
  rw [del_igw_ok verbose vpcId h1]
  exact List.mem_flatMap.2 ⟨g, hg, hx⟩

theorem mem_teardown_of_subItem (verbose : Bool) (vpcId : String) (env : VpcEnv)
    {gs : List Igw} {ss : List Subnet} {rs : List RouteTable}
    {als : List NetworkAcl} {sgs : List SecurityGroup}
    (h1 : env.igws = .ok gs) (h2 : env.subnets = .ok ss)
    (h3 : env.routeTables = .ok rs) (h4 : env.acls = .ok als)
    (h5 : env.securityGroups = .ok sgs) {x : Event} {s : Subnet}
    (hs : s ∈ ss) (hflag : s.default_for_az = true)
    (hx : x ∈ subItemTrace verbose s) :
    x ∈ (del_vpc_all verbose vpcId env).trace := by
  rw [(del_vpc_all_decomp verbose vpcId env (by simp [del_igw, h1])
    (by simp [del_sub, h2]) (by simp [del_rtb, h3]) (by simp [del_acl, h4])
    (by simp [del_sgp, h5])).1]
  refine List.mem_append.2 (Or.inr (List.mem_append.2 (Or.inl ?h)))
  rw [del_sub_ok verbose vpcId h2]
  exact List.mem_flatMap.2 ⟨s, List.mem_filter.2 ⟨hs, hflag⟩, hx⟩

theorem mem_teardown_of_rtbItem (verbose : Bool) (vpcId : String) (env : VpcEnv)
    {gs : List Igw} {ss : List Subnet} {rs : List RouteTable}
    {als : List NetworkAcl} {sgs : List SecurityGroup}
    (h1 : env.igws = .ok gs) (h2 : env.subnets = .ok ss)
    (h3 : env.routeTables = .ok rs) (h4 : env.acls = .ok als)
    (h5 : env.securityGroups = .ok sgs) {x : Event} {r : RouteTable}
    (hr : r ∈ rs) (hx : x ∈ rtbItemTrace verbose r) :
    x ∈ (del_vpc_all verbose vpcId env).trace := by
  rw [(del_vpc_all_decomp verbose vpcId env (by simp [del_igw, h1])
    (by simp [del_sub, h2]) (by simp [del_rtb, h3]) (by simp [del_acl, h4])
    (by simp [del_sgp, h5])).1]
  refine List.mem_append.2 (Or.inr (List.mem_append.2 (Or.inr
    (List.mem_append.2 (Or.inl ?h)))))
  rw [del_rtb_ok verbose vpcId h3]
  exact List.mem_flatMap.2 ⟨r, hr, hx⟩

theorem mem_teardown_of_aclItem (verbose : Bool) (vpcId : String) (env : VpcEnv)
    {gs : List Igw} {ss : List Subnet} {rs : List RouteTable}
    {als : List NetworkAcl} {sgs : List SecurityGroup}
    (h1 : env.igws = .ok gs) (h2 : env.subnets = .ok ss)
    (h3 : env.routeTables = .ok rs) (h4 : env.acls = .ok als)
    (h5 : env.securityGroups = .ok sgs) {x : Event} {a : NetworkAcl}
    (ha : a ∈ als) (hx : x ∈ aclItemTrace verbose a) :
    x ∈ (del_vpc_all verbose vpcId env).trace := by
  rw [(del_vpc_all_decomp verbose vpcId env (by simp [del_igw, h1])
    (by simp [del_sub, h2]) (by simp [del_rtb, h3]) (by simp [del_acl, h4])
    (by simp [del_sgp, h5])).1]
  refine List.mem_append.2 (Or.inr (List.mem_append.2 (Or.inr
    (List.mem_append.2 (Or.inr (List.mem_append.2 (Or.inl ?h)))))))
  rw [del_acl_ok verbose vpcId h4]
  exact List.mem_flatMap.2 ⟨a, ha, hx⟩

theorem mem_teardown_of_sgpItem (verbose : Bool) (vpcId : String) (env : VpcEnv)
    {gs : List Igw} {ss : List Subnet} {rs : List RouteTable}
    {als : List NetworkAcl} {sgs : List SecurityGroup}
    (h1 : env.igws = .ok gs) (h2 : env.subnets = .ok ss)
    (h3 : env.routeTables = .ok rs) (h4 : env.acls = .ok als)
    (h5 : env.securityGroups = .ok sgs) {x : Event} {g : SecurityGroup}
    (hg : g ∈ sgs) (hx : x ∈ sgpItemTrace verbose g) :
    x ∈ (del_vpc_all verbose vpcId env).trace := by
  rw [(del_vpc_all_decomp verbose vpcId env (by simp [del_igw, h1])
    (by simp [del_sub, h2]) (by simp [del_rtb, h3]) (by simp [del_acl, h4])
    (by simp [del_sgp, h5])).1]
  refine List.mem_append.2 (Or.inr (List.mem_append.2 (Or.inr
    (List.mem_append.2 (Or.inr (List.mem_append.2 (Or.inr
      (List.mem_append.2 (Or.inl ?h)))))))))
  rw [del_sgp_ok verbose vpcId h5]
  exact List.mem_flatMap.2 ⟨g, hg, hx⟩

theorem mem_teardown_of_vpcItem (verbose : Bool) (vpcId : String) (env : VpcEnv)
    {gs : List Igw} {ss : List Subnet} {rs : List RouteTable}
    {als : List NetworkAcl} {sgs : List SecurityGroup}
    (h1 : env.igws = .ok gs) (h2 : env.subnets = .ok ss)
    (h3 : env.routeTables = .ok rs) (h4 : env.acls = .ok als)
    (h5 : env.securityGroups = .ok sgs) {x : Event}
    (hx : x ∈ (del_vpc vpcId env).trace) :
    x ∈ (del_vpc_all verbose vpcId env).trace := by
  rw [(del_vpc_all_decomp verbose vpcId env (by simp [del_igw, h1])
    (by simp [del_sub, h2]) (by simp [del_rtb, h3]) (by simp [del_acl, h4])
    (by simp [del_sgp, h5])).1]
  exact List.mem_append.2 (Or.inr (List.mem_append.2 (Or.inr
    (List.mem_append.2 (Or.inr (List.mem_append.2 (Or.inr
      (List.mem_append.2 (Or.inr hx)))))))))

/-- C2: in every teardown step, a failing delete or detach call is caught
and printed with the resource identifier and the underlying error message;
every resource of every kind still gets its own attempt (iteration never
stops at a failure), and the teardown still reaches the final VPC delete.
Stated for an arbitrary environment whose five listing calls succeed, with
every per-resource call outcome left arbitrary. -/
theorem teardown_failures_caught_and_continue (verbose : Bool) (vpcId : String)
    (env : VpcEnv) (gs : List Igw) (ss : List Subnet) (rs : List RouteTable)
    (als : List NetworkAcl) (sgs : List SecurityGroup)
    (h1 : env.igws = .ok gs) (h2 : env.subnets = .ok ss)
    (h3 : env.routeTables = .ok rs) (h4 : env.acls = .ok als)
    (h5 : env.securityGroups = .ok sgs) :
    (∀ g ∈ gs,
        (∀ e, g.detachExc = some e →
          Event.printErrorIgw g.id e ∈ (del_vpc_all verbose vpcId env).trace)
        ∧ (∀ e, g.detachExc = none → g.deleteExc = some e →
          Event.printErrorIgw g.id e ∈ (del_vpc_all verbose vpcId env).trace)
        ∧ Event.apiDetachIgw g.id vpcId ∈ (del_vpc_all verbose vpcId env).trace)
    ∧ (∀ s ∈ ss, s.default_for_az = true →
        (∀ e, s.deleteExc = some e →
          Event.printErrorSubnet s.id e ∈ (del_vpc_all verbose vpcId env).trace)
        ∧ Event.apiDeleteSubnet s.id ∈ (del_vpc_all verbose vpcId env).trace)
    ∧ (∀ r ∈ rs, rtbIsMain r = false →
        (∀ e, r.deleteExc = some e →
          Event.printErrorRtb r.id e ∈ (del_vpc_all verbose vpcId env).trace)
        ∧ Event.apiDeleteRtb r.id ∈ (del_vpc_all verbose vpcId env).trace)
    ∧ (∀ a ∈ als, a.is_default = false →
        (∀ e, a.deleteExc = some e →
          Event.printErrorAcl a.id e ∈ (del_vpc_all verbose vpcId env).trace)
        ∧ Event.apiDeleteAcl a.id ∈ (del_vpc_all verbose vpcId env).trace)
    ∧ (∀ g ∈ sgs, g.group_name ≠ "default" →
        (∀ e, g.deleteExc = some e →
          Event.printErrorSgp g.id e ∈ (del_vpc_all verbose vpcId env).trace)
        ∧ Event.apiDeleteSgp g.id ∈ (del_vpc_all verbose vpcId env).trace)
    ∧ Event.apiDeleteVpc vpcId ∈ (del_vpc_all verbose vpcId env).trace
    ∧ (del_vpc_all verbose vpcId env).exc = none := by
  refine ⟨?igw, ?sub, ?rtb, ?acl, ?sgp, ?vpc, ?exc⟩
  case igw =>
    intro g hg
    refine ⟨fun e he => ?_, fun e hd he => ?_, ?_⟩
    · exact mem_teardown_of_igwItem verbose vpcId env h1 h2 h3 h4 h5 hg
        (by cases verbose <;> simp [igwItemTrace, he])
    · exact mem_teardown_of_igwItem verbose vpcId env h1 h2 h3 h4 h5 hg
        (by cases verbose <;> simp [igwItemTrace, hd, he])
    · exact mem_teardown_of_igwItem verbose vpcId env h1 h2 h3 h4 h5 hg
        (by cases verbose <;> simp [igwItemTrace])
  case sub =>
    intro s hs hflag
    refine ⟨fun e he => ?_, ?_⟩
    · exact mem_teardown_of_subItem verbose vpcId env h1 h2 h3 h4 h5 hs hflag
        (by cases verbose <;> simp [subItemTrace, he])
    · exact mem_teardown_of_subItem verbose vpcId env h1 h2 h3 h4 h5 hs hflag
        (by cases verbose <;> simp [subItemTrace])
  case rtb =>
    intro r hr hmain
    refine ⟨fun e he => ?_, ?_⟩
    · exact mem_teardown_of_rtbItem verbose vpcId env h1 h2 h3 h4 h5 hr
        (by cases verbose <;> simp [rtbItemTrace, hmain, he])
    · exact mem_teardown_of_rtbItem verbose vpcId env h1 h2 h3 h4 h5 hr
        (by cases verbose <;> simp [rtbItemTrace, hmain])
  case acl =>
    intro a ha hdef
    refine ⟨fun e he => ?_, ?_⟩
    · exact mem_teardown_of_aclItem verbose vpcId env h1 h2 h3 h4 h5 ha
        (by cases verbose <;> simp [aclItemTrace, hdef, he])
    · exact mem_teardown_of_aclItem verbose vpcId env h1 h2 h3 h4 h5 ha
        (by cases verbose <;> simp [aclItemTrace, hdef])
  case sgp =>
    intro g hg hname
    refine ⟨fun e he => ?_, ?_⟩
    · exact mem_teardown_of_sgpItem verbose vpcId env h1 h2 h3 h4 h5 hg
        (by cases verbose <;> simp [sgpItemTrace, hname, he])
    · exact mem_teardown_of_sgpItem verbose vpcId env h1 h2 h3 h4 h5 hg
        (by cases verbose <;> simp [sgpItemTrace, hname])
  case vpc =>
    exact mem_teardown_of_vpcItem verbose vpcId env h1 h2 h3 h4 h5
      (by cases henv : env.vpcDeleteExc <;> simp [del_vpc, henv])
  case exc =>
    exact (del_vpc_all_decomp verbose vpcId env (by simp [del_igw, h1])
      (by simp [del_sub, h2]) (by simp [del_rtb, h3]) (by simp [del_acl, h4])
      (by simp [del_sgp, h5])).2

/-- Environment for the C3 counterexample: a single internet gateway whose
detach call raises and whose delete call would succeed. -/
def envDetachFail : VpcEnv :=
  ⟨.ok [⟨"igw-1", some "DependencyViolation", none⟩], .ok [], .ok [], .ok [], .ok [],
    none⟩

/-- C3 counterexample: the gateway's detach call raises, yet the delete call
for that gateway is never attempted — in the source both calls share one
try block, so a detach failure jumps straight to the handler. -/
theorem del_igw_detach_suppresses_delete_cex :
    (del_igw true "vpc-1" envDetachFail).trace
      = [Event.printDetachingIgw "igw-1",
         Event.apiDetachIgw "igw-1" "vpc-1",
         Event.printErrorIgw "igw-1" "DependencyViolation"]
    ∧ Event.apiDeleteIgw "igw-1" ∉ (del_igw true "vpc-1" envDetachFail).trace := by
  decide

/-- C3 (amended): in the gateway step a detach failure suppresses the delete
call for that gateway — the exception is caught and printed with the
gateway id and the error, and the loop continues to the next gateway (every
gateway still gets its detach attempt and the step raises nothing); the
delete is attempted exactly for the gateways whose detach succeeded. -/
theorem del_igw_detach_failure_behavior (verbose : Bool) (vpcId : String)
    (env : VpcEnv) (gs : List Igw) (h : env.igws = .ok gs) :
    (∀ g ∈ gs, ∀ e, g.detachExc = some e →
        Event.apiDeleteIgw g.id ∉ igwItemTrace verbose vpcId g
        ∧ Event.printErrorIgw g.id e ∈ (del_igw verbose vpcId env).trace)
    ∧ (∀ g ∈ gs, g.detachExc = none →
        Event.apiDeleteIgw g.id ∈ igwItemTrace verbose vpcId g)
    ∧ (∀ g ∈ gs, Event.apiDetachIgw g.id vpcId ∈ (del_igw verbose vpcId env).trace)
    ∧ (del_igw verbose vpcId env).exc = none := by
  refine ⟨?_, ?_, ?_, ?_⟩
  · intro g hg e he
    constructor
    · cases verbose <;> simp [igwItemTrace, he]
    · rw [del_igw_ok verbose vpcId h]
      exact List.mem_flatMap.2 ⟨g, hg, by cases verbose <;> simp [igwItemTrace, he]⟩
  · intro g hg hd
    cases verbose <;> simp [igwItemTrace, hd]
  · intro g hg
    rw [del_igw_ok verbose vpcId h]
    exact List.mem_flatMap.2 ⟨g, hg, by cases verbose <;> simp [igwItemTrace]⟩
  · simp [del_igw, h]

/-- Witness for the amended C3 statement at a concrete gateway whose detach
raises. -/
theorem del_igw_detach_failure_behavior_witness :
    Event.apiDeleteIgw "igw-9" ∉ igwItemTrace true "vpc-9" ⟨"igw-9", some "err", none⟩
    ∧ Event.printErrorIgw "igw-9" "err"
      ∈ (del_igw true "vpc-9"
          ⟨.ok [⟨"igw-9", some "err", none⟩], .ok [], .ok [], .ok [], .ok [], none⟩).trace := by
  have h := del_igw_detach_failure_behavior true "vpc-9"
    ⟨.ok [⟨"igw-9", some "err", none⟩], .ok [], .ok [], .ok [], .ok [], none⟩
    [⟨"igw-9", some "err", none⟩] rfl
  exact h.1 ⟨"igw-9", some "err", none⟩ (by decide) "err" rfl

/-- C4 counterexample: a failing route-table listing call makes
`del_vpc_all` propagate the exception to its caller instead of returning
normally. -/
theorem del_vpc_all_throws_on_listing_failure_cex :
    (del_vpc_all true "vpc-1"
        ⟨.ok [], .ok [], .error "RequestLimitExceeded", .ok [], .ok [], none⟩).exc
      = some "RequestLimitExceeded" := by
  decide

/-- C4 (amended): `del_vpc_all` returns normally for every outcome of the
per-resource delete and detach calls and of the final VPC delete, provided
the five listing calls succeed; a listing-call failure, by contrast, does
propagate an exception to the caller. -/
theorem del_vpc_all_no_throw (verbose : Bool) (vpcId : String) (env : VpcEnv)
    (gs : List Igw) (ss : List Subnet) (rs : List RouteTable)
    (als : List NetworkAcl) (sgs : List SecurityGroup)
    (h1 : env.igws = .ok gs) (h2 : env.subnets = .ok ss)
    (h3 : env.routeTables = .ok rs) (h4 : env.acls = .ok als)
    (h5 : env.securityGroups = .ok sgs) :
    (del_vpc_all verbose vpcId env).exc = none
    ∧ ∀ (env2 : VpcEnv) (e : String), env2.igws = .error e →
        (del_vpc_all verbose vpcId env2).exc = some e := by
  constructor
  · exact (del_vpc_all_decomp verbose vpcId env (by simp [del_igw, h1])
      (by simp [del_sub, h2]) (by simp [del_rtb, h3]) (by simp [del_acl, h4])
      (by simp [del_sgp, h5])).2
  · intro env2 e he
    unfold del_vpc_all
    rw [pseq_exc_some (show (del_igw verbose vpcId env2).exc = some e by
      simp [del_igw, he])]

/-- Witness for the amended C4 statement: full teardown of a VPC where
every delete call fails yet nothing escapes, and propagation of a failing
gateway listing. -/
theorem del_vpc_all_no_throw_witness :
    (del_vpc_all true "vpc-2"
        ⟨.ok [⟨"igw-2", some "a", some "b"⟩], .ok [⟨"subnet-2", true, some "c"⟩],
         .ok [⟨"rtb-2", [none], some "d"⟩], .ok [⟨"acl-2", false, some "e"⟩],
         .ok [⟨"sg-2", "web", some "f"⟩], some "g"⟩).exc = none
    ∧ (del_vpc_all true "vpc-2"
        ⟨.error "boom", .ok [], .ok [], .ok [], .ok [], none⟩).exc = some "boom" := by
  have h := del_vpc_all_no_throw true "vpc-2"
    ⟨.ok [⟨"igw-2", some "a", some "b"⟩], .ok [⟨"subnet-2", true, some "c"⟩],
     .ok [⟨"rtb-2", [none], some "d"⟩], .ok [⟨"acl-2", false, some "e"⟩],
     .ok [⟨"sg-2", "web", some "f"⟩], some "g"⟩
    [⟨"igw-2", some "a", some "b"⟩] [⟨"subnet-2", true, some "c"⟩]
    [⟨"rtb-2", [none], some "d"⟩] [⟨"acl-2", false, some "e"⟩]
    [⟨"sg-2", "web", some "f"⟩] rfl rfl rfl rfl rfl
  exact ⟨h.1, h.2 ⟨.error "boom", .ok [], .ok [], .ok [], .ok [], none⟩ "boom" rfl⟩

/-- Witness for C1: a full environment with one resource of each kind, a
failing detach and a failing subnet delete; the teardown completes. -/
theorem del_vpc_all_fixed_order_witness :
    (del_vpc_all true "vpc-0"
        ⟨.ok [⟨"igw-0", some "x", none⟩], .ok [⟨"subnet-0", true, some "y"⟩],
         .ok [⟨"rtb-0", [some true], none⟩], .ok [⟨"acl-0", true, none⟩],
         .ok [⟨"sg-0", "default", none⟩], none⟩).exc = none :=
  ((del_vpc_all_fixed_order true "vpc-0"
    ⟨.ok [⟨"igw-0", some "x", none⟩], .ok [⟨"subnet-0", true, some "y"⟩],
     .ok [⟨"rtb-0", [some true], none⟩], .ok [⟨"acl-0", true, none⟩],
     .ok [⟨"sg-0", "default", none⟩], none⟩
    [⟨"igw-0", some "x", none⟩] [⟨"subnet-0", true, some "y"⟩]
    [⟨"rtb-0", [some true], none⟩] [⟨"acl-0", true, none⟩]
    [⟨"sg-0", "default", none⟩] rfl rfl rfl rfl rfl).1).2

/-- Environment for the C2 witness: the first subnet's delete fails, the
gateway's delete fails, the security group's delete fails. -/
def envContinue : VpcEnv :=
  ⟨.ok [⟨"igw-3", none, some "gerr"⟩],
   .ok [⟨"subnet-1", true, some "oops"⟩, ⟨"subnet-3", true, none⟩],
   .ok [⟨"rtb-3", [], none⟩], .ok [⟨"acl-3", false, none⟩],
   .ok [⟨"sg-3", "app", some "serr"⟩], none⟩

/-- Witness for C2: the failing subnet delete is printed with id and error,
the later subnet is still attempted, and the final VPC delete is reached. -/
theorem teardown_failures_caught_and_continue_witness :
    Event.printErrorSubnet "subnet-1" "oops" ∈ (del_vpc_all true "vpc-3" envContinue).trace
    ∧ Event.apiDeleteSubnet "subnet-3" ∈ (del_vpc_all true "vpc-3" envContinue).trace
    ∧ Event.apiDeleteVpc "vpc-3" ∈ (del_vpc_all true "vpc-3" envContinue).trace := by
  have h := teardown_failures_caught_and_continue true "vpc-3" envContinue
    [⟨"igw-3", none, some "gerr"⟩]
    [⟨"subnet-1", true, some "oops"⟩, ⟨"subnet-3", true, none⟩]
    [⟨"rtb-3", [], none⟩] [⟨"acl-3", false, none⟩]
    [⟨"sg-3", "app", some "serr"⟩] rfl rfl rfl rfl rfl
  refine ⟨?_, ?_, ?_⟩
  · exact (h.2.1 ⟨"subnet-1", true, some "oops"⟩ (by decide) rfl).1 "oops" rfl
  · exact (h.2.1 ⟨"subnet-3", true, none⟩ (by decide) rfl).2
  · exact h.2.2.2.2.2.1

/-- C5: in the security-group step a group is skipped, with the distinct
skip message as its only event, exactly when its name is the exact string
"default"; every other group (any other name, case or substring variants
included) is targeted for deletion. -/
theorem del_sgp_exact_default_skip (vpcId : String) (env : VpcEnv)
    (sgs : List SecurityGroup) (h : env.securityGroups = .ok sgs) :
    (del_sgp VERBOSE vpcId env).trace = sgs.flatMap (sgpItemTrace VERBOSE)
    ∧ ∀ g : SecurityGroup,
        (Event.apiDeleteSgp g.id ∈ sgpItemTrace VERBOSE g ↔ g.group_name ≠ "default")
        ∧ (g.group_name = "default" →
            sgpItemTrace VERBOSE g = [Event.printSkipDefaultSgp g.id]) := by
  constructor
  · rw [del_sgp_ok VERBOSE vpcId h]
  · intro g
    constructor
    · by_cases hn : g.group_name = "default"
      · simp [sgpItemTrace, hn, VERBOSE]
      · cases hd : g.deleteExc <;> simp [sgpItemTrace, hn, hd, VERBOSE]
    · intro hn
      simp [sgpItemTrace, hn, VERBOSE]

/-- Witness for C5: a group named "default" is never targeted; groups named
"default-vpc" and "Default" are targeted. -/
theorem del_sgp_exact_default_skip_witness :
    Event.apiDeleteSgp "sg-a" ∉ sgpItemTrace VERBOSE ⟨"sg-a", "default", none⟩
    ∧ Event.apiDeleteSgp "sg-b" ∈ sgpItemTrace VERBOSE ⟨"sg-b", "default-vpc", none⟩
    ∧ Event.apiDeleteSgp "sg-c" ∈ sgpItemTrace VERBOSE ⟨"sg-c", "Default", none⟩ := by
  have h := (del_sgp_exact_default_skip "vpc-5"
    ⟨.ok [], .ok [], .ok [], .ok [], .ok [], none⟩ [] rfl).2
  exact ⟨fun hm => (h ⟨"sg-a", "default", none⟩).1.mp hm rfl,
    (h ⟨"sg-b", "default-vpc", none⟩).1.mpr (by decide),
    (h ⟨"sg-c", "Default", none⟩).1.mpr (by decide)⟩

/-- Every event of the subnet loop body names the iterated subnet's id. -/
theorem subItemTrace_shape (verbose : Bool) (t : Subnet) {x : Event}
    (hx : x ∈ subItemTrace verbose t) :
    x = Event.printRemovingSubnet t.id ∨ x = Event.apiDeleteSubnet t.id
    ∨ ∃ e, x = Event.printErrorSubnet t.id e := by
  unfold subItemTrace at hx
  cases hd : t.deleteExc <;> rw [hd] at hx <;> cases verbose <;> simp at hx <;> tauto

/-- C6: in the subnet step exactly the subnets with `default_for_az` true
are targeted; the others are filtered out before the loop, so no delete
call and no message of any kind is emitted for them. -/
theorem del_sub_targets_default_only (vpcId : String) (env : VpcEnv)
    (ss : List Subnet) (h : env.subnets = .ok ss) :
    (del_sub VERBOSE vpcId env).trace
      = (ss.filter (fun s => s.default_for_az)).flatMap (subItemTrace VERBOSE)
    ∧ (∀ s ∈ ss, s.default_for_az = true →
        Event.apiDeleteSubnet s.id ∈ (del_sub VERBOSE vpcId env).trace)
    ∧ (∀ s ∈ ss, s.default_for_az = false →
        (∀ t ∈ ss, t.default_for_az = true → t.id ≠ s.id) →
        Event.apiDeleteSubnet s.id ∉ (del_sub VERBOSE vpcId env).trace
        ∧ Event.printRemovingSubnet s.id ∉ (del_sub VERBOSE vpcId env).trace
        ∧ ∀ e, Event.printErrorSubnet s.id e ∉ (del_sub VERBOSE vpcId env).trace) := by
  refine ⟨?_, ?_, ?_⟩
  · rw [del_sub_ok VERBOSE vpcId h]
  · intro s hs hflag
    rw [del_sub_ok VERBOSE vpcId h]
    exact List.mem_flatMap.2 ⟨s, List.mem_filter.2 ⟨hs, hflag⟩, by simp [subItemTrace]⟩
  · intro s hs hflag hfresh
    have key : ∀ x : Event, x ∈ (del_sub VERBOSE vpcId env).trace →
        ∃ t, t ∈ ss ∧ t.default_for_az = true
          ∧ (x = Event.printRemovingSubnet t.id ∨ x = Event.apiDeleteSubnet t.id
            ∨ ∃ e, x = Event.printErrorSubnet t.id e) := by
      intro x hx
      rw [del_sub_ok VERBOSE vpcId h] at hx
      obtain ⟨t, htf, hmem⟩ := List.mem_flatMap.1 hx
      obtain ⟨hts, htflag⟩ := List.mem_filter.1 htf
      exact ⟨t, hts, htflag, subItemTrace_shape VERBOSE t hmem⟩
    refine ⟨fun hm => ?_, fun hm => ?_, fun e hm => ?_⟩
    · obtain ⟨t, hts, htflag, hshape⟩ := key _ hm
      rcases hshape with he | he | ⟨e, he⟩
      · exact Event.noConfusion he
      · exact hfresh t hts htflag (by injection he with hid; exact hid.symm)
      · exact Event.noConfusion he
    · obtain ⟨t, hts, htflag, hshape⟩ := key _ hm
      rcases hshape with he | he | ⟨e, he⟩
      · exact hfresh t hts htflag (by injection he with hid; exact hid.symm)
      · exact Event.noConfusion he
      · exact Event.noConfusion he
    · obtain ⟨t, hts, htflag, hshape⟩ := key _ hm
      rcases hshape with he | he | ⟨e2, he⟩
      · exact Event.noConfusion he
      · exact Event.noConfusion he
      · exact hfresh t hts htflag (by injection he with hid hmsg; exact hid.symm)

/-- Environment for the C6 witness: one default and one non-default subnet. -/
def envSubnets : VpcEnv :=
  ⟨.ok [], .ok [⟨"subnet-d", true, none⟩, ⟨"subnet-n", false, none⟩],
   .ok [], .ok [], .ok [], none⟩

/-- Witness for C6: the default subnet is targeted, the non-default one gets
neither a delete call nor a message. -/
theorem del_sub_targets_default_only_witness :
    Event.apiDeleteSubnet "subnet-d" ∈ (del_sub VERBOSE "vpc-6" envSubnets).trace
    ∧ Event.apiDeleteSubnet "subnet-n" ∉ (del_sub VERBOSE "vpc-6" envSubnets).trace
    ∧ Event.printRemovingSubnet "subnet-n" ∉ (del_sub VERBOSE "vpc-6" envSubnets).trace := by
  have h := del_sub_targets_default_only "vpc-6" envSubnets
    [⟨"subnet-d", true, none⟩, ⟨"subnet-n", false, none⟩] rfl
  have h3 := h.2.2 ⟨"subnet-n", false, none⟩ (by decide) rfl (by decide)
  exact ⟨h.2.1 ⟨"subnet-d", true, none⟩ (by decide) rfl, h3.1, h3.2.1⟩

/-- C7: in the route-table step a table is the main table exactly when its
association list holds an entry whose `Main` key is true; the main table is
never passed to delete and its only event is the distinct skip message,
every other table is passed to delete. -/
theorem del_rtb_skips_main (vpcId : String) (env : VpcEnv)
    (rs : List RouteTable) (h : env.routeTables = .ok rs) :
    (del_rtb VERBOSE vpcId env).trace = rs.flatMap (rtbItemTrace VERBOSE)
    ∧ ∀ r : RouteTable,
        (rtbIsMain r = true ↔ ∃ a ∈ r.associations, a = some true)
        ∧ (rtbIsMain r = true →
            Event.apiDeleteRtb r.id ∉ rtbItemTrace VERBOSE r
            ∧ rtbItemTrace VERBOSE r = [Event.printSkipMainRtb r.id])
        ∧ (rtbIsMain r = false →
            Event.apiDeleteRtb r.id ∈ rtbItemTrace VERBOSE r
            ∧ Event.printSkipMainRtb r.id ∉ rtbItemTrace VERBOSE r) := by
  constructor
  · rw [del_rtb_ok VERBOSE vpcId h]
  · intro r
    refine ⟨?_, fun hm => ⟨?_, ?_⟩, fun hm => ⟨?_, ?_⟩⟩
    · simp only [rtbIsMain, List.any_eq_true]
      constructor
      · rintro ⟨a, ha, hval⟩
        cases a with
        | none => simp at hval
        | some b =>
          cases b with
          | false => simp at hval
          | true => exact ⟨some true, ha, rfl⟩
      · rintro ⟨a, ha, rfl⟩
        exact ⟨some true, ha, rfl⟩
    · simp [rtbItemTrace, hm, VERBOSE]
    · simp [rtbItemTrace, hm, VERBOSE]
    · cases hd : r.deleteExc <;> simp [rtbItemTrace, hm, hd, VERBOSE]
    · cases hd : r.deleteExc <;> simp [rtbItemTrace, hm, hd, VERBOSE]

/-- Witness for C7: a table whose second association has `Main` true is
skipped with the skip message only; a table with a `Main`-false association
is deleted. -/
theorem del_rtb_skips_main_witness :
    Event.apiDeleteRtb "rtb-m" ∉ rtbItemTrace VERBOSE ⟨"rtb-m", [none, some true], none⟩
    ∧ rtbItemTrace VERBOSE ⟨"rtb-m", [none, some true], none⟩
        = [Event.printSkipMainRtb "rtb-m"]
    ∧ Event.apiDeleteRtb "rtb-x" ∈ rtbItemTrace VERBOSE ⟨"rtb-x", [some false], none⟩ := by
  have h := (del_rtb_skips_main "vpc-7"
    ⟨.ok [], .ok [], .ok [], .ok [], .ok [], none⟩ [] rfl).2
  have hmain := (h ⟨"rtb-m", [none, some true], none⟩).2.1 (by decide)
  exact ⟨hmain.1, hmain.2, ((h ⟨"rtb-x", [some false], none⟩).2.2 (by decide)).1⟩

/-- C8: a region whose client construction or default-VPC discovery fails
contributes exactly one error print — no banner and no submitted teardown
task — and every region after it is still fully processed. -/
theorem main_region_failure_skips_region (pre post : List Region) (r : Region)
    (e : String) (h : r.discovery = .error e) :
    regionEvents r = [Event.printErrorRegion r.name e]
    ∧ mainLoop (pre ++ r :: post)
        = mainLoop pre ++ Event.printErrorRegion r.name e :: mainLoop post
    ∧ (∀ v, Event.submitTeardown r.name v ∉ regionEvents r)
    ∧ (∀ v, Event.printRegionBanner r.name v ∉ regionEvents r)
    ∧ ∀ r2 ∈ post, ∀ vpcs, r2.discovery = .ok vpcs → ∀ v ∈ vpcs,
        Event.submitTeardown r2.name v ∈ mainLoop (pre ++ r :: post) := by
  have hr : regionEvents r = [Event.printErrorRegion r.name e] := by
    simp [regionEvents, h]
  refine ⟨hr, ?_, ?_, ?_, ?_⟩
  · simp [mainLoop, hr]
  · intro v
    rw [hr]; simp
  · intro v
    rw [hr]; simp
  · intro r2 hr2 vpcs hok v hv
    unfold mainLoop
    refine List.mem_flatMap.2 ⟨r2, ?_, ?_⟩
    · simp [hr2]
    · simp only [regionEvents, hok]
      exact List.mem_flatMap.2 ⟨v, hv, by simp⟩

/-- Witness for C8: one failing region followed by one healthy region; the
failing one yields only the error print, and the healthy one's VPC is still
submitted. -/
theorem main_region_failure_skips_region_witness :
    regionEvents ⟨"eu-west-1", .error "AuthFailure"⟩
      = [Event.printErrorRegion "eu-west-1" "AuthFailure"]
    ∧ Event.submitTeardown "ap-south-1" "vpc-q"
      ∈ mainLoop ([] ++ ⟨"eu-west-1", .error "AuthFailure"⟩
          :: [⟨"ap-south-1", .ok ["vpc-q"]⟩]) := by
  have h := main_region_failure_skips_region [] [⟨"ap-south-1", .ok ["vpc-q"]⟩]
    ⟨"eu-west-1", .error "AuthFailure"⟩ "AuthFailure" rfl
  exact ⟨h.1, h.2.2.2.2 ⟨"ap-south-1", .ok ["vpc-q"]⟩ (List.mem_singleton.2 rfl)
    ["vpc-q"] rfl "vpc-q" (List.mem_singleton.2 rfl)⟩

/-- C9: the "Removing vpc-id" banner of the final step is printed for every
environment — `del_vpc` does not consult the verbose flag — while the
per-resource messages of the five dependent steps appear only when the
verbose flag is true (with the flag false none of them is ever printed,
and the source constant is true). -/
theorem del_vpc_banner_unconditional (vpcId : String) :
    (∀ env : VpcEnv, Event.printRemovingVpc vpcId ∈ (del_vpc vpcId env).trace)
    ∧ (∀ (env : VpcEnv) (sid : String),
        Event.printRemovingSubnet sid ∉ (del_sub false vpcId env).trace)
    ∧ (∀ (env : VpcEnv) (ss : List Subnet) (s : Subnet), env.subnets = .ok ss →
        s ∈ ss → s.default_for_az = true →
        Event.printRemovingSubnet s.id ∈ (del_sub true vpcId env).trace)
    ∧ (∀ (env : VpcEnv) (gid : String),
        Event.printDetachingIgw gid ∉ (del_igw false vpcId env).trace)
    ∧ (∀ (env : VpcEnv) (rid : String),
        Event.printRemovingRtb rid ∉ (del_rtb false vpcId env).trace
        ∧ Event.printSkipMainRtb rid ∉ (del_rtb false vpcId env).trace)
    ∧ (∀ (env : VpcEnv) (aid : String),
        Event.printRemovingAcl aid ∉ (del_acl false vpcId env).trace
        ∧ Event.printSkipDefaultAcl aid ∉ (del_acl false vpcId env).trace)
    ∧ (∀ (env : VpcEnv) (gid : String),
        Event.printRemovingSgp gid ∉ (del_sgp false vpcId env).trace
        ∧ Event.printSkipDefaultSgp gid ∉ (del_sgp false vpcId env).trace)
    ∧ VERBOSE = true := by
  refine ⟨?_, ?_, ?_, ?_, ?_, ?_, ?_, rfl⟩
  · intro env
    simp [del_vpc]
  · intro env sid
    cases h : env.subnets with
    | error e => simp [del_sub, h]
    | ok ss =>
      rw [del_sub_ok false vpcId h]
      intro hm
      obtain ⟨t, _, ht⟩ := List.mem_flatMap.1 hm
      unfold subItemTrace at ht
      cases hd : t.deleteExc <;> rw [hd] at ht <;> simp at ht
  · intro env ss s h hs hflag
    rw [del_sub_ok true vpcId h]
    exact List.mem_flatMap.2 ⟨s, List.mem_filter.2 ⟨hs, hflag⟩, by simp [subItemTrace]⟩
  · intro env gid
    cases h : env.igws with
    | error e => simp [del_igw, h]
    | ok gs =>
      rw [del_igw_ok false vpcId h]
      intro hm
      obtain ⟨t, _, ht⟩ := List.mem_flatMap.1 hm
      unfold igwItemTrace at ht
      cases hd1 : t.detachExc with
      | none =>
        rw [hd1] at ht
        cases hd2 : t.deleteExc <;> rw [hd2] at ht <;> simp at ht
      | some e1 =>
        rw [hd1] at ht
        simp at ht
  · intro env rid
    cases h : env.routeTables with
    | error e => simp [del_rtb, h]
    | ok rs =>
      constructor <;>
        · rw [del_rtb_ok false vpcId h]
          intro hm
          obtain ⟨t, _, ht⟩ := List.mem_flatMap.1 hm
          unfold rtbItemTrace at ht
          cases hmn : rtbIsMain t with
          | true =>
            rw [hmn] at ht
            simp at ht
          | false =>
            rw [hmn] at ht
            cases hd : t.deleteExc <;> rw [hd] at ht <;> simp at ht
  · intro env aid
    cases h : env.acls with
    | error e => simp [del_acl, h]
    | ok als =>
      constructor <;>
        · rw [del_acl_ok false vpcId h]
          intro hm
          obtain ⟨t, _, ht⟩ := List.mem_flatMap.1 hm
          unfold aclItemTrace at ht
          cases hdf : t.is_default with
          | true =>
            rw [hdf] at ht
            simp at ht
          | false =>
            rw [hdf] at ht
            cases hd : t.deleteExc <;> rw [hd] at ht <;> simp at ht
  · intro env gid
    cases h : env.securityGroups with
    | error e => simp [del_sgp, h]
    | ok sgs =>
      constructor <;>
        · rw [del_sgp_ok false vpcId h]
          intro hm
          obtain ⟨t, _, ht⟩ := List.mem_flatMap.1 hm
          unfold sgpItemTrace at ht
          by_cases hn : t.group_name = "default"
          · rw [if_pos hn] at ht
            simp at ht
          · rw [if_neg hn] at ht
            cases hd : t.deleteExc <;> rw [hd] at ht <;> simp at ht

/-- Environment for the C9 witness: one default subnet. -/
def envBanner : VpcEnv :=
  ⟨.ok [], .ok [⟨"subnet-9", true, none⟩], .ok [], .ok [], .ok [], none⟩

/-- Witness for C9: the VPC banner prints even when the VPC delete fails,
while the subnet banner prints with the flag true and not with it false. -/
theorem del_vpc_banner_unconditional_witness :
    Event.printRemovingVpc "vpc-9w"
      ∈ (del_vpc "vpc-9w" ⟨.ok [], .ok [], .ok [], .ok [], .ok [], some "err"⟩).trace
    ∧ Event.printRemovingSubnet "subnet-9" ∉ (del_sub false "vpc-9w" envBanner).trace
    ∧ Event.printRemovingSubnet "subnet-9" ∈ (del_sub true "vpc-9w" envBanner).trace := by
  have h := del_vpc_banner_unconditional "vpc-9w"
  exact ⟨h.1 ⟨.ok [], .ok [], .ok [], .ok [], .ok [], some "err"⟩,
    h.2.1 envBanner "subnet-9",
    h.2.2.1 envBanner [⟨"subnet-9", true, none⟩] ⟨"subnet-9", true, none⟩ rfl
      (by decide) rfl⟩

/-- C10: the worker-pool size comes from the MAX_WORKERS environment
variable through an unguarded `int()` — a set value that `int()` rejects
makes `main` raise before any region event is emitted — and an unset
variable yields exactly 20. -/
theorem max_workers_env_parse (s : String) (e : String)
    (h : pyIntOfString s = .error e) :
    resolveMaxWorkers none = .ok 20
    ∧ (∀ regions : List Region, pymain (some s) regions = ⟨[], some e⟩)
    ∧ (∀ regions : List Region,
        pymain none regions = ⟨mainLoop regions ++ [Event.printDone], none⟩) := by
  refine ⟨rfl, ?_, fun regions => rfl⟩
  intro regions
  simp [pymain, resolveMaxWorkers, h]

/-- Witness for C10: MAX_WORKERS set to "twenty" crashes `main` with no
region processed; unset it resolves to 20. -/
theorem max_workers_env_parse_witness :
    pymain (some "twenty") [⟨"us-east-1", .ok ["vpc-w"]⟩]
      = ⟨[], some "invalid literal for int() with base 10: twenty"⟩
    ∧ resolveMaxWorkers none = .ok 20 := by
  have h := max_workers_env_parse "twenty"
    "invalid literal for int() with base 10: twenty" rfl
  exact ⟨h.2.1 [⟨"us-east-1", .ok ["vpc-w"]⟩], h.1⟩
